import Mathlib

/-!
Shallow embedding of the NeuroDrive fault-detection and self-healing engine
(src/neuro_brain.py) and proofs about its behaviour.

Python floats are modelled as rationals.  The two external black boxes of the
source are passed in as parameters:

* the IsolationForest outlier query of NeuralEngine.detect_anomaly is a
  function returning some true (outlier, prediction -1), some false (inlier)
  or none (the query raised and the except-branch of the source runs);
* the IsolationForest fit of NeuralEngine.train is a function from the
  normalized calibration set to a Bool saying whether the fit succeeded
  (on a failed fit the except-branch of the source swallows the error).

Commands are gathered in an output list instead of being written to a UDP
socket; a send never blocks and its failure is swallowed by the source, so
the emitted list is the faithful observable.
-/

namespace Neurodrive

/-- Commands sent on the egress channel, mirroring the JSON objects built in
src/neuro_brain.py and src/dashboard.py. -/
inductive Command where
  | DRIVE (value1 value2 : ℚ)
  | HEAL (value1 value2 : ℚ)
  | FAULT (value1 value2 : ℚ)
deriving Repr, DecidableEq

/-- State of the NeuralEngine class (src/neuro_brain.py lines 13-19).  The
fitted IsolationForest itself is external; only the fields the logic reads
and writes are kept. -/
structure NeuralEngine where
  is_trained : Bool
  scaler_max_speed : ℚ
  scaler_max_vib : ℚ
  anomaly_counter : ℕ
deriving Repr, DecidableEq

/-- Initial NeuralEngine state (lines 14-19 of src/neuro_brain.py). -/
def NeuralEngine.init : NeuralEngine :=
  { is_trained := false, scaler_max_speed := 1, scaler_max_vib := 1, anomaly_counter := 0 }

/-- NeuralEngine.train (src/neuro_brain.py lines 22-35).  The np.max calls
raise on an empty array, hence the Option result; the fit call is the
parameter, true meaning the fit succeeded.  The scalers are assigned before
the try-block, so they are updated even when the fit fails. -/
def train (fit : List (ℚ × ℚ) → Bool) (e : NeuralEngine)
    (data_points : List (ℚ × ℚ)) : Option NeuralEngine :=
  match (data_points.map Prod.fst).max?, (data_points.map Prod.snd).max? with
  | some ms, some mv =>
    let max_s : ℚ := if ms > 0 then ms else 1
    let max_v : ℚ := if mv > 0 then mv else 1
    let X_normalized := data_points.map fun p => (p.1 / max_s, p.2 / max_v)
    let e' := { e with scaler_max_speed := max_s, scaler_max_vib := max_v }
    some (if fit X_normalized then { e' with is_trained := true } else e')
  | _, _ => none

/-- NeuralEngine.detect_anomaly (src/neuro_brain.py lines 37-54).  Returns
the boolean verdict together with the updated engine state.  The predict
parameter receives the normalized features; none models a raised exception,
in which case the except-branch returns False with the state unchanged. -/
def detect_anomaly (predict : ℚ → ℚ → Option Bool) (e : NeuralEngine)
    (speed vibration : ℚ) : Bool × NeuralEngine :=
  if e.is_trained = false then (false, e)
  else if speed < 5 ∧ vibration < 1/10 then
    (false, { e with anomaly_counter := 0 })
  else
    match predict (speed / e.scaler_max_speed) (vibration / e.scaler_max_vib) with
    | none => (false, e)
    | some is_anomaly =>
      let c : ℕ := if is_anomaly then e.anomaly_counter + 1 else e.anomaly_counter - 1
      (decide (c > 10), { e with anomaly_counter := c })

/-- State of the SymbolicEngine class (src/neuro_brain.py lines 57-60). -/
structure SymbolicEngine where
  fault_counter : ℕ
  last_valid_speed : ℚ
deriving Repr, DecidableEq

/-- Initial SymbolicEngine state (lines 58-60 of src/neuro_brain.py). -/
def SymbolicEngine.init : SymbolicEngine :=
  { fault_counter := 0, last_valid_speed := 0 }

/-- The physics-paradox rule of line 65 of src/neuro_brain.py:
stopped but vibrating above 0.05. -/
def paradoxRule (speed vibration : ℚ) : Bool :=
  decide (speed < 1) && decide (vibration > 1/20)

/-- The impossible-deceleration rule of lines 69-71 of src/neuro_brain.py:
speed drops from above 20 to below 1. -/
def impossibleStopRule (last_valid_speed speed : ℚ) : Bool :=
  decide (last_valid_speed > 20) && decide (speed < 1)

/-- SymbolicEngine.check_safety_rules (src/neuro_brain.py lines 62-85). -/
def check_safety_rules (e : SymbolicEngine) (speed vibration : ℚ) :
    Option String × SymbolicEngine :=
  let paradox := paradoxRule speed vibration
  let impossible_stop := impossibleStopRule e.last_valid_speed speed
  let e' :=
    if speed > 1 then { fault_counter := 0, last_valid_speed := speed }
    else if paradox || impossible_stop then { e with fault_counter := e.fault_counter + 1 }
    else { e with fault_counter := 0 }
  (if e'.fault_counter > 3 then
    some "CRITICAL: Wheel Speed Sensor Failure (Signal Loss)"
   else none, e')

/-- A telemetry sample as read by the runtime loop (src/neuro_brain.py
lines 155-158): speed, vibration and the status string. -/
structure Sample where
  speed : ℚ
  vibration : ℚ
  status : String
deriving Repr, DecidableEq

/-- The status string that signals the vehicle switched to the virtual
sensor (src/neuro_brain.py line 183). -/
def healedStatus : String := "HEALED (VIRTUAL_SENSOR)"

/-- A raw UDP datagram as seen by the drain loop: it either parses as JSON
to a sample, or json.loads raises on it. -/
inductive Packet where
  | wellFormed (speed vibration : ℚ) (status : String)
  | malformed
deriving Repr, DecidableEq

/-- json.loads plus the field reads of src/neuro_brain.py lines 155-158. -/
def parsePacket : Packet → Option Sample
  | Packet.wellFormed s v st => some { speed := s, vibration := v, status := st }
  | Packet.malformed => none

/-- The drain loop of src/neuro_brain.py lines 144-149: every queued
datagram is read, only the last raw one is kept. -/
def drainLatest (queue : List Packet) : Option Packet :=
  queue.getLast?

/-- One poll of the telemetry channel as the runtime loop performs it
(src/neuro_brain.py lines 144-158): drain to the last raw datagram and
parse it; if json.loads raises, the outer except skips the tick and no
sample is surfaced. -/
def pollSample (queue : List Packet) : Option Sample :=
  match drainLatest queue with
  | none => none
  | some p => parsePacket p

/-- Modelled from the spec words for claim comparison only: return the last
SUCCESSFULLY PARSED packet of the drained batch (spec section 4.1).  The
source, by contrast, parses only the last raw datagram. -/
def pollSampleSpec (queue : List Packet) : Option Sample :=
  (queue.filterMap parsePacket).getLast?

/-- The four synthetic safe points injected at src/neuro_brain.py line 134. -/
def syntheticSafePoints : List (ℚ × ℚ) :=
  [(0, 1/1000), (1, 1/500), (5, 1/200), (0, 0)]

/-- The fixed fallback pair set of src/neuro_brain.py line 136. -/
def fallbackPairs : List (ℚ × ℚ) :=
  [(10, 1/50), (50, 1/20)]

/-- Lines 134-136 of src/neuro_brain.py: the calibration set handed to
train, built from the real warm-up samples. -/
def buildCalibrationSet (real_samples : List (ℚ × ℚ)) : List (ℚ × ℚ) :=
  let t := real_samples ++ syntheticSafePoints
  if t.length < 5 then t ++ fallbackPairs else t

/-- The mutable state of the runtime loop of start_neurodrive: the two
engines and the healing_triggered latch (src/neuro_brain.py lines 97-100). -/
structure SystemState where
  brain : NeuralEngine
  logic : SymbolicEngine
  healing_triggered : Bool
deriving Repr, DecidableEq

/-- One iteration of the monitoring loop of src/neuro_brain.py lines
160-202, for a tick on which a sample was delivered: run both detectors on
the sample, then the decision / self-healing branch cascade.  The returned
list holds the commands sent on this tick. -/
def tick (predict : ℚ → ℚ → Option Bool) (st : SystemState) (s : Sample) :
    SystemState × List Command :=
  let rp := check_safety_rules st.logic s.speed s.vibration
  let np := detect_anomaly predict st.brain s.speed s.vibration
  let rule_fault := rp.1
  let neural_fault := np.1
  if (rule_fault.isSome || neural_fault) && !st.healing_triggered then
    ({ brain := np.2, logic := rp.2, healing_triggered := true }, [Command.HEAL 1 0])
  else if s.status = healedStatus then
    ({ brain := np.2, logic := rp.2, healing_triggered := st.healing_triggered }, [])
  else if !rule_fault.isSome && !neural_fault then
    if st.healing_triggered && decide (s.speed > 5) then
      ({ brain := np.2, logic := rp.2, healing_triggered := false }, [Command.FAULT 0 0])
    else
      ({ brain := np.2, logic := rp.2, healing_triggered := st.healing_triggered }, [])
  else
    ({ brain := np.2, logic := rp.2, healing_triggered := st.healing_triggered }, [])

/-- Iterate tick over a list of delivered samples, concatenating the
commands sent. -/
def runTicks (predict : ℚ → ℚ → Option Bool) (st : SystemState) :
    List Sample → SystemState × List Command
  | [] => (st, [])
  | s :: rest =>
    let p := tick predict st s
    let q := runTicks predict p.1 rest
    (q.1, p.2 ++ q.2)

/-- Is a command the HEAL command (src/neuro_brain.py line 175)? -/
def isHeal : Command → Bool
  | Command.HEAL _ _ => true
  | _ => false

/-- Is a command the clearing FAULT(0,0) command (src/neuro_brain.py
line 198)? -/
def isClearFault : Command → Bool
  | Command.FAULT v1 v2 => decide (v1 = 0) && decide (v2 = 0)
  | _ => false

/-- Number of HEAL commands in an emitted command list. -/
def countHeal (cmds : List Command) : ℕ := (cmds.filter isHeal).length

/-- Number of clearing FAULT(0,0) commands in an emitted command list. -/
def countClear (cmds : List Command) : ℕ := (cmds.filter isClearFault).length

/-- Iterate check_safety_rules over a list of (speed, vibration) ticks,
collecting the reports. -/
def runRules (e : SymbolicEngine) : List (ℚ × ℚ) → List (Option String) × SymbolicEngine
  | [] => ([], e)
  | (s, v) :: rest =>
    let p := check_safety_rules e s v
    let q := runRules p.2 rest
    (p.1 :: q.1, q.2)

/-- Read off, tick by tick, whether the impossible-deceleration condition of
src/neuro_brain.py lines 69-71 holds when the tick is processed. -/
def runStopFlags (e : SymbolicEngine) : List (ℚ × ℚ) → List Bool
  | [] => []
  | (s, v) :: rest =>
    impossibleStopRule e.last_valid_speed s ::
      runStopFlags (check_safety_rules e s v).2 rest

/-- Iterate detect_anomaly over a list of (speed, vibration) ticks,
collecting the verdicts. -/
def runDetect (predict : ℚ → ℚ → Option Bool) (e : NeuralEngine) :
    List (ℚ × ℚ) → List Bool × NeuralEngine
  | [] => ([], e)
  | (s, v) :: rest =>
    let p := detect_anomaly predict e s v
    let q := runDetect predict p.2 rest
    (p.1 :: q.1, q.2)

/-- Helper for maxRunTrue: cur is the length of the current run of true,
best the longest run seen so far. -/
def maxRunAux : List Bool → ℕ → ℕ → ℕ
  | [], cur, best => max cur best
  | true :: rest, cur, best => maxRunAux rest (cur + 1) best
  | false :: rest, cur, best => maxRunAux rest 0 (max cur best)

/-- Length of the longest run of consecutive true entries in a list. -/
def maxRunTrue (l : List Bool) : ℕ := maxRunAux l 0 0

/-- A model query that always answers inlier; used to instantiate runs in
which the anomaly detector reports no fault. -/
def predictInlier : ℚ → ℚ → Option Bool := fun _ _ => some false

/-- A concrete model query keyed on the normalized speed: samples with
normalized speed above 50 score as outliers, the rest as inliers. -/
def predictBySpeed : ℚ → ℚ → Option Bool := fun s _ => some (decide (s > 50))

/-- Accounting weight of the healing latch: an unlatched state may still
emit the one HEAL that opens an episode. -/
def latchSlack (b : Bool) : ℕ := if b then 0 else 1

/-- The (speed, vibration) tick sequence of the impossible-deceleration
scenario: cruising at 25, then an instant drop to 0.2, vibration 0.06
throughout. -/
def decelInputs : List (ℚ × ℚ) :=
  [(25, 6/100), (25, 6/100), (25, 6/100),
   (1/5, 6/100), (1/5, 6/100), (1/5, 6/100), (1/5, 6/100)]

/-- A 13-tick input sequence for the anomaly detector: 10 outlier-scored
ticks, one inlier-scored tick, then 2 more outlier-scored ticks (under
predictBySpeed with unit scalers). -/
def mixedAnomalyInputs : List (ℚ × ℚ) :=
  List.replicate 10 ((100 : ℚ), (1 : ℚ)) ++ [(10, 1), (100, 1), (100, 1)]

/-- The per-tick outlier verdicts of predictBySpeed on mixedAnomalyInputs,
with unit scalers so the normalized features equal the raw ones. -/
def mixedAnomalyScores : List Bool :=
  mixedAnomalyInputs.map fun p => (predictBySpeed (p.1 / 1) (p.2 / 1)).getD false

/-- A healthy cruising sample: speed 20, vibration 0.005, plain status. -/
def okSample : Sample := { speed := 20, vibration := 1/200, status := "OK" }

/-- A sample whose status reports the virtual sensor took over, at virtual
speed 20. -/
def healedSample : Sample := { speed := 20, vibration := 1/200, status := healedStatus }

/-- The recovery round-trip scenario: one healed-status tick, then five
healthy ticks at speed 20. -/
def recoverySamples : List Sample := healedSample :: List.replicate 5 okSample

/-! Helper lemmas. -/

theorem countHeal_append (a b : List Command) :
    countHeal (a ++ b) = countHeal a + countHeal b := by
  simp [countHeal, List.filter_append]

theorem countClear_append (a b : List Command) :
    countClear (a ++ b) = countClear a + countClear b := by
  simp [countClear, List.filter_append]

theorem tick_latch_step (predict : ℚ → ℚ → Option Bool) (st : SystemState) (s : Sample) :
    countHeal (tick predict st s).2 + latchSlack (tick predict st s).1.healing_triggered ≤
      countClear (tick predict st s).2 + latchSlack st.healing_triggered := by
  simp only [tick]
  split_ifs <;>
    simp_all [countHeal, countClear, isHeal, isClearFault, latchSlack, List.filter]

theorem runTicks_latch_invariant (predict : ℚ → ℚ → Option Bool) :
    ∀ (samples : List Sample) (st : SystemState),
      countHeal (runTicks predict st samples).2 ≤
        countClear (runTicks predict st samples).2 + latchSlack st.healing_triggered
  | [], st => by simp [runTicks, countHeal, countClear]
  | s :: rest, st => by
    have hstep := tick_latch_step predict st s
    have ih := runTicks_latch_invariant predict rest (tick predict st s).1
    simp only [runTicks, countHeal_append, countClear_append]
    omega

theorem tick_latched_no_heal (predict : ℚ → ℚ → Option Bool) (st : SystemState)
    (s : Sample) (h : st.healing_triggered = true) :
    ∀ c ∈ (tick predict st s).2, isHeal c = false := by
  simp only [tick]
  split_ifs <;> simp_all [isHeal]

/-! Claim theorems. -/

/-- Claim C1: while the healing latch is set, no tick ever emits a HEAL
command, and across any tick sequence run from a latched state the number
of HEAL commands emitted never exceeds the number of latch-clearing
FAULT(0,0) commands — so between the latch-setting tick and the subsequent
recovery tick that clears the latch, no further HEAL is sent, and a fault
signal on a later latched tick never causes another HEAL. -/
theorem heal_at_most_one_in_flight (predict : ℚ → ℚ → Option Bool)
    (st : SystemState) (h : st.healing_triggered = true) :
    (∀ s : Sample, ∀ c ∈ (tick predict st s).2, isHeal c = false) ∧
    (∀ samples : List Sample,
      countHeal (runTicks predict st samples).2 ≤
        countClear (runTicks predict st samples).2) := by
  refine ⟨fun s => tick_latched_no_heal predict st s h, fun samples => ?_⟩
  have := runTicks_latch_invariant predict samples st
  simp [latchSlack, h] at this
  exact this

/-- Witness for C1: a concrete latched state processing a faulting sample
emits no HEAL. -/
theorem heal_at_most_one_in_flight_witness :
    (SystemState.mk NeuralEngine.init SymbolicEngine.init true).healing_triggered = true ∧
    countHeal (runTicks predictInlier
        (SystemState.mk NeuralEngine.init SymbolicEngine.init true)
        [Sample.mk (1/2) (6/100) "OK"]).2 ≤
      countClear (runTicks predictInlier
        (SystemState.mk NeuralEngine.init SymbolicEngine.init true)
        [Sample.mk (1/2) (6/100) "OK"]).2 :=
  ⟨rfl, (heal_at_most_one_in_flight predictInlier _ rfl).2 _⟩

/-- Claim C10: the clearing FAULT(0,0) command is emitted only on a tick
whose sample status differs from the healed-virtual status string, and on
any tick whose status equals that string while the latch is set, no command
at all is emitted and the latch stays set. -/
theorem clear_requires_status_change (predict : ℚ → ℚ → Option Bool)
    (st : SystemState) (s : Sample) :
    (Command.FAULT 0 0 ∈ (tick predict st s).2 → s.status ≠ healedStatus) ∧
    (s.status = healedStatus → st.healing_triggered = true →
      (tick predict st s).2 = [] ∧ (tick predict st s).1.healing_triggered = true) := by
  simp only [tick]
  split_ifs <;> simp_all

/-- Witness for C10: a concrete latched state on a healed-status sample
emits nothing and stays latched. -/
theorem clear_requires_status_change_witness :
    healedSample.status = healedStatus ∧
    (SystemState.mk NeuralEngine.init SymbolicEngine.init true).healing_triggered = true ∧
    (tick predictInlier (SystemState.mk NeuralEngine.init SymbolicEngine.init true)
        healedSample).2 = [] ∧
    (tick predictInlier (SystemState.mk NeuralEngine.init SymbolicEngine.init true)
        healedSample).1.healing_triggered = true :=
  ⟨rfl, rfl,
    (clear_requires_status_change predictInlier _ healedSample).2 rfl rfl⟩

/-- Claim C5: on speeds 25,25,25 then 0.2,0.2,0.2,0.2 with vibration 0.06
throughout, from a fresh rule engine, the impossible-deceleration condition
first holds on tick 4 (after 25 was recorded as last valid speed), and the
CRITICAL wheel-speed-sensor-failure report is first returned on tick 7 and
on no earlier tick. -/
theorem impossible_deceleration_scenario :
    runStopFlags SymbolicEngine.init decelInputs =
      [false, false, false, true, true, true, true] ∧
    (runRules SymbolicEngine.init decelInputs).1 =
      [none, none, none, none, none, none,
       some "CRITICAL: Wheel Speed Sensor Failure (Signal Loss)"] := by
  constructor <;>
    norm_num [decelInputs, runStopFlags, runRules, check_safety_rules,
      paradoxRule, impossibleStopRule, SymbolicEngine.init]

/-- Counterexample to claim C4 as stated: a warm-up that gathered exactly
one real sample — fewer than 5 — yields a calibration set consisting of the
real sample and the four synthetic safe points only; the fixed fallback
pair set is NOT added, because the source checks the length only after the
four synthetic points have been appended. -/
theorem calibration_fallback_counterexample :
    [((2 : ℚ), (1 : ℚ)/100)].length < 5 ∧
    buildCalibrationSet [((2 : ℚ), (1 : ℚ)/100)] =
      [(2, 1/100), (0, 1/1000), (1, 1/500), (5, 1/200), (0, 0)] ∧
    ((10 : ℚ), (1 : ℚ)/50) ∉ buildCalibrationSet [((2 : ℚ), (1 : ℚ)/100)] := by
  refine ⟨by norm_num, by norm_num [buildCalibrationSet, syntheticSafePoints], ?_⟩
  norm_num [buildCalibrationSet, syntheticSafePoints]

/-- Claim C4 (amended): the fallback pair set is added exactly when zero
real samples were gathered during warm-up (so that the combined set of real
plus four synthetic points has fewer than 5 entries); with at least one
real sample the calibration set is the real samples plus the four synthetic
points only.  In all cases the set contains the synthetic points of speed 0
and speed 1, so it always has at least two distinct speed values. -/
theorem calibration_fallback (real_samples : List (ℚ × ℚ)) :
    (real_samples = [] →
      buildCalibrationSet real_samples = syntheticSafePoints ++ fallbackPairs) ∧
    (real_samples ≠ [] →
      buildCalibrationSet real_samples = real_samples ++ syntheticSafePoints) ∧
    ((0 : ℚ), (0 : ℚ)) ∈ buildCalibrationSet real_samples ∧
    ((1 : ℚ), (1 : ℚ)/500) ∈ buildCalibrationSet real_samples := by
  refine ⟨?_, ?_, ?_, ?_⟩
  · rintro rfl
    norm_num [buildCalibrationSet, syntheticSafePoints, fallbackPairs]
  · intro hne
    cases real_samples with
    | nil => exact absurd rfl hne
    | cons a l =>
      simp only [buildCalibrationSet, syntheticSafePoints]
      rw [if_neg (by simp)]
  · simp only [buildCalibrationSet, syntheticSafePoints]
    split_ifs <;> simp
  · simp only [buildCalibrationSet, syntheticSafePoints]
    split_ifs <;> simp

/-- Witness for C4 (amended): with zero real samples the fallback pairs are
added. -/
theorem calibration_fallback_witness :
    buildCalibrationSet [] = syntheticSafePoints ++ fallbackPairs :=
  (calibration_fallback []).1 rfl

/-- Counterexample to claim C3 as stated: a poll that drains a valid packet
followed by a malformed one surfaces no sample at all, although the batch
contains a successfully parseable packet — the source parses only the last
raw datagram, so a corrupt last packet suppresses the whole batch. -/
theorem drain_latest_counterexample :
    pollSample [Packet.wellFormed 20 0 "OK", Packet.malformed] = none ∧
    pollSampleSpec [Packet.wellFormed 20 0 "OK", Packet.malformed] =
      some { speed := 20, vibration := 0, status := "OK" } :=
  ⟨rfl, rfl⟩

/-- Claim C3 (amended): every poll drains the whole queue and keeps only
the last raw datagram; an empty queue yields nothing; if the last queued
datagram is well-formed it is surfaced as the sample regardless of earlier
malformed datagrams, and if the last queued datagram is malformed nothing
is surfaced on that poll, even when earlier datagrams of the same batch
were valid.  The loop itself never stalls: the tick is skipped. -/
theorem drain_latest_behaviour (queue : List Packet) (s v : ℚ) (st : String) :
    pollSample [] = none ∧
    pollSample (queue ++ [Packet.wellFormed s v st]) =
      some { speed := s, vibration := v, status := st } ∧
    pollSample (queue ++ [Packet.malformed]) = none := by
  refine ⟨rfl, ?_, ?_⟩ <;>
    simp [pollSample, drainLatest, List.getLast?_concat, parsePacket]

theorem detect_counter_le (predict : ℚ → ℚ → Option Bool) (e : NeuralEngine)
    (s v : ℚ) :
    (detect_anomaly predict e s v).2.anomaly_counter ≤ e.anomaly_counter + 1 := by
  simp only [detect_anomaly]
  split_ifs with h1 h2
  · simp
  · simp
  · rcases hp : predict (s / e.scaler_max_speed) (v / e.scaler_max_vib) with _ | b
    · simp [hp]
    · cases b <;> simp [hp]
      omega

theorem detect_true_counter (predict : ℚ → ℚ → Option Bool) (e : NeuralEngine)
    (s v : ℚ) (h : (detect_anomaly predict e s v).1 = true) :
    10 < (detect_anomaly predict e s v).2.anomaly_counter := by
  simp only [detect_anomaly] at h ⊢
  split_ifs at h ⊢ with h1 h2
  rcases hp : predict (s / e.scaler_max_speed) (v / e.scaler_max_vib) with _ | b
  · simp [hp] at h
  · simp [hp] at h ⊢
    exact h

theorem runDetect_true_length (predict : ℚ → ℚ → Option Bool) :
    ∀ (inputs : List (ℚ × ℚ)) (e : NeuralEngine),
      true ∈ (runDetect predict e inputs).1 → 10 < e.anomaly_counter + inputs.length
  | [], e => by simp [runDetect]
  | (s, v) :: rest, e => by
    intro hmem
    simp only [runDetect, List.mem_cons] at hmem
    rcases hmem with h | h
    · have h1 := detect_true_counter predict e s v h.symm
      have h2 := detect_counter_le predict e s v
      simp only [List.length_cons]
      omega
    · have ih := runDetect_true_length predict rest (detect_anomaly predict e s v).2 h
      have h2 := detect_counter_le predict e s v
      simp only [List.length_cons]
      omega

/-- Claim C6 (amended): for a detector whose hysteresis counter starts at
0, a single call — whatever the model scores — never returns true; any run
in which some tick returns true has at least 11 ticks; and a call returns
true only when the updated counter strictly exceeds 10.  The outlier ticks
need not be consecutive, because an inlier tick only decrements the counter
by one. -/
theorem anomaly_hysteresis (predict : ℚ → ℚ → Option Bool) (e : NeuralEngine)
    (hc : e.anomaly_counter = 0) :
    (∀ s v, (detect_anomaly predict e s v).1 = false) ∧
    (∀ inputs : List (ℚ × ℚ),
      true ∈ (runDetect predict e inputs).1 → 11 ≤ inputs.length) ∧
    (∀ (e' : NeuralEngine) (s v : ℚ), (detect_anomaly predict e' s v).1 = true →
      10 < (detect_anomaly predict e' s v).2.anomaly_counter) := by
  refine ⟨fun s v => ?_, fun inputs h => ?_,
    fun e' s v h => detect_true_counter predict e' s v h⟩
  · cases hb : (detect_anomaly predict e s v).1 with
    | false => rfl
    | true =>
      have h1 := detect_true_counter predict e s v hb
      have h2 := detect_counter_le predict e s v
      omega
  · have := runDetect_true_length predict inputs e h
    omega

/-- Witness for C6 (amended): a single outlier-scored call from a zeroed
counter returns false. -/
theorem anomaly_hysteresis_witness :
    (NeuralEngine.mk true 1 1 0).anomaly_counter = 0 ∧
    (detect_anomaly predictBySpeed (NeuralEngine.mk true 1 1 0) 100 1).1 = false :=
  ⟨rfl, (anomaly_hysteresis predictBySpeed (NeuralEngine.mk true 1 1 0) rfl).1 100 1⟩

/-- Counterexample to claim C6 as stated: on the 13-tick input sequence of
10 outlier-scored ticks, one inlier-scored tick and 2 more outlier-scored
ticks, the detector does return true, yet the model never scored 11
consecutive ticks as outliers — the longest run of outlier verdicts is 10.
Returning true therefore does not require 11 CONSECUTIVE outlier ticks. -/
theorem anomaly_hysteresis_counterexample :
    true ∈ (runDetect predictBySpeed (NeuralEngine.mk true 1 1 0)
      mixedAnomalyInputs).1 ∧
    maxRunTrue mixedAnomalyScores = 10 := by
  constructor <;>
    norm_num [mixedAnomalyInputs, mixedAnomalyScores, runDetect, detect_anomaly,
      predictBySpeed, maxRunTrue, maxRunAux, List.replicate]

/-- Claim C7: after training has succeeded, any call with speed below 5 and
vibration below 0.1 returns false and resets the hysteresis counter to 0,
without querying the model: the result is the same for every predict
function, as the statement's right-hand side does not mention it.  In
particular detect_anomaly 0 0.001 is false for every trained state. -/
theorem low_speed_exemption (predict : ℚ → ℚ → Option Bool) (e : NeuralEngine)
    (ht : e.is_trained = true) (s v : ℚ) (hs : s < 5) (hv : v < 1/10) :
    detect_anomaly predict e s v = (false, { e with anomaly_counter := 0 }) := by
  simp only [detect_anomaly, ht]
  rw [if_neg (by simp), if_pos ⟨hs, hv⟩]

/-- Witness for C7: a trained state with a nonzero counter, called at
speed 0 and vibration 0.001. -/
theorem low_speed_exemption_witness :
    (NeuralEngine.mk true 1 1 7).is_trained = true ∧
    (0 : ℚ) < 5 ∧ (1 : ℚ)/1000 < 1/10 ∧
    detect_anomaly predictBySpeed (NeuralEngine.mk true 1 1 7) 0 (1/1000) =
      (false, NeuralEngine.mk true 1 1 0) :=
  ⟨rfl, by norm_num, by norm_num,
    low_speed_exemption predictBySpeed (NeuralEngine.mk true 1 1 7) rfl 0 (1/1000)
      (by norm_num) (by norm_num)⟩

/-- Claim C8: a run of train turns is_trained on exactly when the fit
succeeded; an untrained detector's detect_anomaly returns false with the
state unchanged, for every input and every model; and no detect_anomaly
call ever changes is_trained — so with the one-shot training of the source,
a failed fit leaves the detector permanently inert. -/
theorem training_fail_safe (e : NeuralEngine) (data : List (ℚ × ℚ)) (b : Bool) :
    (∀ e', train (fun _ => b) e data = some e' →
      e'.is_trained = (b || e.is_trained)) ∧
    (e.is_trained = false → ∀ predict s v,
      detect_anomaly predict e s v = (false, e)) ∧
    (∀ predict s v, (detect_anomaly predict e s v).2.is_trained = e.is_trained) := by
  refine ⟨?_, ?_, ?_⟩
  · intro e' he
    simp only [train] at he
    rcases h1 : (data.map Prod.fst).max? with _ | ms <;>
      rcases h2 : (data.map Prod.snd).max? with _ | mv <;>
      simp only [h1, h2] at he <;> simp at he
    subst he
    cases b <;> simp
  · intro hf predict s v
    simp [detect_anomaly, hf]
  · intro predict s v
    simp only [detect_anomaly]
    split_ifs with h1 h2
    · rfl
    · simp
    · rcases hp : predict (s / e.scaler_max_speed) (v / e.scaler_max_vib) with _ | c
      · simp [hp]
      · simp [hp]

/-- Witness for C8: the fresh untrained engine returns false and is left
unchanged on an arbitrary sample. -/
theorem training_fail_safe_witness :
    NeuralEngine.init.is_trained = false ∧
    detect_anomaly predictInlier NeuralEngine.init 100 1 = (false, NeuralEngine.init) :=
  ⟨rfl, (training_fail_safe NeuralEngine.init [] false).2.1 rfl predictInlier 100 1⟩

theorem train_total (fit : List (ℚ × ℚ) → Bool) (e : NeuralEngine)
    (data : List (ℚ × ℚ)) (hne : data ≠ []) :
    ∃ e', train fit e data = some e' := by
  cases data with
  | nil => exact absurd rfl hne
  | cons a l =>
    simp only [train]
    rw [show ((a :: l).map Prod.fst).max? = some ((l.map Prod.fst).foldl max a.1) from rfl,
        show ((a :: l).map Prod.snd).max? = some ((l.map Prod.snd).foldl max a.2) from rfl]
    exact ⟨_, rfl⟩

theorem train_scalers (fit : List (ℚ × ℚ) → Bool) (e : NeuralEngine)
    (data : List (ℚ × ℚ)) (e' : NeuralEngine) (h : train fit e data = some e') :
    (∀ m, (data.map Prod.fst).max? = some m →
      e'.scaler_max_speed = if m > 0 then m else 1) ∧
    (∀ m, (data.map Prod.snd).max? = some m →
      e'.scaler_max_vib = if m > 0 then m else 1) := by
  simp only [train] at h
  rcases h1 : (data.map Prod.fst).max? with _ | ms <;>
    rcases h2 : (data.map Prod.snd).max? with _ | mv <;>
    simp only [h1, h2] at h <;> simp at h
  subst h
  constructor
  · intro m hm
    injection hm with hm'
    subst hm'
    split_ifs <;> simp
  · intro m hm
    injection hm with hm'
    subst hm'
    split_ifs <;> simp

/-- Claim C9: on every nonempty calibration set, train sets each scale
factor to the observed column maximum when that maximum is strictly
positive and to 1 otherwise; both resulting scale factors are strictly
positive, so neither the normalization inside train nor the one inside
detect_anomaly divides by zero.  (The source always calls train on a set
holding at least the four synthetic points, hence nonempty.) -/
theorem scaler_guard (fit : List (ℚ × ℚ) → Bool) (e : NeuralEngine)
    (data : List (ℚ × ℚ)) (hne : data ≠ []) :
    ∃ e', train fit e data = some e' ∧
      0 < e'.scaler_max_speed ∧ 0 < e'.scaler_max_vib ∧
      (∀ m, (data.map Prod.fst).max? = some m →
        e'.scaler_max_speed = if m > 0 then m else 1) ∧
      (∀ m, (data.map Prod.snd).max? = some m →
        e'.scaler_max_vib = if m > 0 then m else 1) := by
  obtain ⟨e', he⟩ := train_total fit e data hne
  obtain ⟨hs, hv⟩ := train_scalers fit e data e' he
  cases data with
  | nil => exact absurd rfl hne
  | cons a l =>
    have h1 : ((a :: l).map Prod.fst).max? = some ((l.map Prod.fst).foldl max a.1) := rfl
    have h2 : ((a :: l).map Prod.snd).max? = some ((l.map Prod.snd).foldl max a.2) := rfl
    refine ⟨e', he, ?_, ?_, hs, hv⟩
    · rw [hs _ h1]
      split_ifs with h
      · exact h
      · norm_num
    · rw [hv _ h2]
      split_ifs with h
      · exact h
      · norm_num

/-- Witness for C9: training on the single pair (10, 0.02). -/
theorem scaler_guard_witness :
    ([((10 : ℚ), (1 : ℚ)/50)] ≠ []) ∧
    ∃ e', train (fun _ => true) NeuralEngine.init [((10 : ℚ), (1 : ℚ)/50)] = some e' ∧
      0 < e'.scaler_max_speed ∧ 0 < e'.scaler_max_vib ∧
      (∀ m, (([((10 : ℚ), (1 : ℚ)/50)]).map Prod.fst).max? = some m →
        e'.scaler_max_speed = if m > 0 then m else 1) ∧
      (∀ m, (([((10 : ℚ), (1 : ℚ)/50)]).map Prod.snd).max? = some m →
        e'.scaler_max_vib = if m > 0 then m else 1) :=
  ⟨by simp, scaler_guard (fun _ => true) NeuralEngine.init [((10 : ℚ), (1 : ℚ)/50)] (by simp)⟩

theorem ok_ne_healedStatus : ¬("OK" = healedStatus) := by
  intro h
  have := congrArg String.length h
  simp [healedStatus, String.length] at this

/-- Claim C2: from a latched state (a HEAL was already sent) with a trained
detector at counter 0, a model scoring every query as inlier, and any rule
engine state, processing one healed-status tick followed by five healthy
ticks at speed 20 ends with the latch clear and exactly one FAULT(0,0)
command emitted over the whole sequence. -/
theorem recovery_round_trip (predict : ℚ → ℚ → Option Bool)
    (hp : ∀ x y, predict x y = some false)
    (brain0 : NeuralEngine) (ht : brain0.is_trained = true)
    (hc : brain0.anomaly_counter = 0) (logic0 : SymbolicEngine) :
    (runTicks predict ⟨brain0, logic0, true⟩ recoverySamples).1.healing_triggered = false ∧
    (runTicks predict ⟨brain0, logic0, true⟩ recoverySamples).2 = [Command.FAULT 0 0] := by
  obtain ⟨bt, bs, bv, bc⟩ := brain0
  obtain ⟨lc, ls⟩ := logic0
  simp only [NeuralEngine.is_trained, NeuralEngine.anomaly_counter] at ht hc
  subst ht hc
  constructor <;>
    norm_num [recoverySamples, healedSample, okSample, List.replicate,
      runTicks, tick, check_safety_rules, detect_anomaly, paradoxRule,
      impossibleStopRule, hp, ok_ne_healedStatus]

/-- Witness for C2: the concrete trained engine with unit scalers and the
all-inlier model. -/
theorem recovery_round_trip_witness :
    (∀ x y : ℚ, predictInlier x y = some false) ∧
    (NeuralEngine.mk true 1 1 0).is_trained = true ∧
    (NeuralEngine.mk true 1 1 0).anomaly_counter = 0 ∧
    (runTicks predictInlier
        ⟨NeuralEngine.mk true 1 1 0, SymbolicEngine.init, true⟩
        recoverySamples).1.healing_triggered = false ∧
    (runTicks predictInlier
        ⟨NeuralEngine.mk true 1 1 0, SymbolicEngine.init, true⟩
        recoverySamples).2 = [Command.FAULT 0 0] :=
  ⟨fun _ _ => rfl, rfl, rfl,
    (recovery_round_trip predictInlier (fun _ _ => rfl)
      (NeuralEngine.mk true 1 1 0) rfl rfl SymbolicEngine.init).1,
    (recovery_round_trip predictInlier (fun _ _ => rfl)
      (NeuralEngine.mk true 1 1 0) rfl rfl SymbolicEngine.init).2⟩

end Neurodrive
